import Mathlib

/-!
MultiPosti upload core — a shallow embedding.

A shallow embedding of the upload-orchestration core of the MultiPosti
repository, together with theorems checking its specification.

Python strings are modelled as lists of Unicode code points (`PyStr`).
External effects (file-system probes, HTTP requests) are modelled by
explicit environment records that carry the answer each call would
return, including the possibility of a raised exception where the
source code can observe one.  Python `dict`s keyed by strings are
modelled as association lists with insert-or-overwrite semantics.

Sources embedded here:
* `src/core/base_platform.py` — `validate_video_file`, `prepare_upload_data`
* `src/core/platform_manager.py` — `get_platform`,
  `upload_video_to_platform`, `upload_video_to_multiple_platforms`
* `src/platforms/tiktok/tiktok_platform.py` — `upload_video`,
  `_publish_video`, `_format_description`
* `src/platforms/facebook/facebook_platform.py` — `upload_video`,
  `_format_combined_text`
* `src/platforms/youtube/youtube_platform.py` — `upload_video`,
  `_resumable_upload`
-/

/-- A Python string: a list of Unicode code points. -/
abbrev PyStr := List Char

deriving instance DecidableEq for Except

/-- Coerce a Lean string literal to the `PyStr` model. -/
def pys (s : String) : PyStr := s.data

/-- Python `str.strip()`: drop whitespace from both ends. -/
def pyStrip (s : PyStr) : PyStr :=
  ((s.dropWhile Char.isWhitespace).reverse.dropWhile Char.isWhitespace).reverse

/-- Python `s.startswith('#')` for the single-character prefix `'#'`. -/
def startsWithHash (s : PyStr) : Bool :=
  match s with
  | [] => false
  | c :: _ => c = '#'

/-- Python `str.lower()` on one character, restricted to the ASCII range
(the platform keys in the source are ASCII). -/
def pyLowerChar (c : Char) : Char :=
  if 65 ≤ c.toNat ∧ c.toNat ≤ 90 then Char.ofNat (c.toNat + 32) else c

/-- Python `str.lower()` (ASCII model). -/
def pyLower (s : PyStr) : PyStr := s.map pyLowerChar

/-! ## File-system environment and `validate_video_file`

`BaseSocialPlatform.validate_video_file` probes the path with
`Path.exists()`, `Path.is_file()` and `Path.stat().st_size`, inside a
`try`/`except` that converts any raised exception into `False`.  Each
probe's answer (or raised exception, carried as a message) is a field
of `FileInfo`. -/

/-- Answers the file system would give for one path. -/
structure FileInfo where
  exRes : Except PyStr Bool
  isFileRes : Except PyStr Bool
  statSizeRes : Except PyStr Nat
deriving DecidableEq

/-- Model of `BaseSocialPlatform.validate_video_file` (base_platform.py lines 84–114). -/
def validate_video_file (f : FileInfo) : Bool :=
  match f.exRes with
  | .error _ => false
  | .ok ex =>
    if ¬ ex then false
    else
      match f.isFileRes with
      | .error _ => false
      | .ok isf =>
        if ¬ isf then false
        else
          match f.statSizeRes with
          | .error _ => false
          | .ok file_size => if file_size = 0 then false else true

/-- A `FileInfo` for a readable non-empty regular file. -/
def goodFile : FileInfo := ⟨.ok true, .ok true, .ok 1⟩

/-- A `FileInfo` for a nonexistent path. -/
def missingFile : FileInfo := ⟨.ok false, .ok false, .error (pys "ENOENT")⟩

/-! ## `prepare_upload_data` (base_platform.py lines 126–149)

Only the `title` and `description` fields are modelled; the
`timestamp` and `platform` fields are environment metadata with no
bearing on any claim, and `upload_data.update(kwargs)` merges caller
extras untouched. -/

/-- The prepared upload-data fields the core computes. -/
structure UploadData where
  title : PyStr
  description : PyStr
deriving DecidableEq

/-- Model of `BaseSocialPlatform.prepare_upload_data`: Python
`title.strip() if title else 'Untitled'` and
`description.strip() if description else ''`; a Python `str` is falsy
exactly when it is empty. -/
def prepare_upload_data (title description : PyStr) : UploadData :=
  ⟨if title ≠ [] then pyStrip title else pys "Untitled",
   if description ≠ [] then pyStrip description else []⟩

/-! ## Hashtag normalization and description formatting

`TikTokPlatform._format_description` (tiktok_platform.py lines 251–285)
and `FacebookPlatform._format_combined_text` (facebook_platform.py lines
354–385) contain the identical hashtag loop:

```
for tag in hashtags:
    tag = tag.strip()
    if tag and not tag.startswith('#'):
        tag = f"#{tag}"
    if tag:
        formatted_hashtags.append(tag)
```
-/

/-- The shared hashtag-formatting loop. -/
def formatHashtags : List PyStr → List PyStr
  | [] => []
  | tag :: rest =>
    let t := pyStrip tag
    let t := if t ≠ [] ∧ ¬ startsWithHash t then '#' :: t else t
    if t ≠ [] then t :: formatHashtags rest else formatHashtags rest

/-- The part list built by `_format_description` / `_format_combined_text`:
title and description are appended when truthy after stripping, then the
space-joined hashtags when any survive formatting. -/
def descriptionParts (title description : PyStr) (hashtags : Option (List PyStr)) :
    List PyStr :=
  let parts : List PyStr := []
  let parts := if title ≠ [] ∧ pyStrip title ≠ [] then parts ++ [pyStrip title] else parts
  let parts :=
    if description ≠ [] ∧ pyStrip description ≠ [] then parts ++ [pyStrip description]
    else parts
  match hashtags with
  | none => parts
  | some hs =>
    if hs ≠ [] then
      let formatted_hashtags := formatHashtags hs
      if formatted_hashtags ≠ [] then
        parts ++ [List.intercalate [' '] formatted_hashtags]
      else parts
    else parts

/-- The join of the parts with a blank line between them — the un-truncated
text. Facebook's `_format_combined_text` returns exactly this. -/
def format_combined_text (title description : PyStr) (hashtags : Option (List PyStr)) :
    PyStr :=
  List.intercalate ['\n', '\n'] (descriptionParts title description hashtags)

/-- Model of `TikTokPlatform._format_description`: joined parts, truncated to the
2200-character TikTok limit (`final_description[:2197] + "..."` when above). -/
def format_description (title description : PyStr) (hashtags : Option (List PyStr)) :
    PyStr :=
  let final_description := format_combined_text title description hashtags
  if final_description.length > 2200 then final_description.take 2197 ++ pys "..."
  else final_description

/-- The `description` field of the request body built by
`TikTokPlatform._publish_video` (tiktok_platform.py line 225):
`description[:2200]`. -/
def publishRequestDescription (description : PyStr) : PyStr :=
  description.take 2200

/-! ## Structured results and error details

Each distinct Python error-message format string becomes one
constructor; its interpolated arguments become the constructor's
arguments. -/

/-- Error details appearing in result dictionaries. -/
inductive ErrMsg where
  /-- platform_manager: `f'Platform not found: {platform_name}'` -/
  | platformNotFound (name : PyStr)
  /-- platform_manager: `f'Authentication failed for {platform_name}'` -/
  | authFailedFor (name : PyStr)
  /-- tiktok / facebook upload_video: `"Authentication failed"` /
      `"Falló la autenticación"` -/
  | authenticationFailed
  /-- tiktok / facebook upload_video: `"Invalid video file"` /
      `"Archivo de video inválido"` -/
  | invalidVideoFile
  /-- youtube upload_video: `'Not authenticated'` -/
  | notAuthenticated
  /-- youtube upload_video: `'Upload failed - no response'` -/
  | uploadFailedNoResponse
  /-- youtube upload_video: `f"YouTube API error: {e}"` (re-raised
      non-retryable `HttpError`, carrying its status) -/
  | youtubeApiError (status : Nat)
  /-- youtube `_resumable_upload`: `f"Server error {e.resp.status}: {e}"` -/
  | serverError (status : Nat)
  /-- youtube upload_video: `f"Unexpected error during upload: {e}"` -/
  | unexpectedError (msg : PyStr)
  /-- tiktok upload_video: `f"Error uploading video to TikTok: {e}"` -/
  | errorUploadingTiktok (msg : PyStr)
  /-- facebook upload_video: `f"Error subiendo video a Facebook: {e}"` -/
  | errorUploadingFacebook (msg : PyStr)
  /-- a failure dictionary passed through unchanged from a helper step
      (`_initialize_upload`, `_upload_file`, `_publish_video`,
      `_start_upload_session`, ...), carrying its message text -/
  | stepError (msg : PyStr)
deriving DecidableEq

/-- The structured upload-result dictionary: `success` flag, optional
`error` detail, optional published video identifier. -/
structure UploadResult where
  success : Bool
  error : Option ErrMsg
  video_id : Option PyStr
deriving DecidableEq

/-- Failure result with an error detail. -/
def failRes (e : ErrMsg) : UploadResult := ⟨false, some e, none⟩

/-! ## YouTube `_resumable_upload` (youtube_platform.py lines 211–256)

The loop calls `insert_request.next_chunk()` repeatedly.  With
`chunksize=-1` (upload in a single chunk, line 132) a call either
returns the final response or raises.  One call's outcome: -/

/-- The response object returned by a completed `next_chunk()`;
`id` is absent when the API answered with an unexpected body. -/
structure YtResponse where
  id : Option PyStr
deriving DecidableEq

/-- Outcome of one `next_chunk()` call. -/
inductive ChunkOutcome where
  /-- returns a response (loop exits) -/
  | done (resp : YtResponse)
  /-- raises `HttpError` with a retryable status (500/502/503/504) -/
  | retryable (status : Nat)
  /-- raises `HttpError` with any other status: re-raised (`raise e`) -/
  | fatal (status : Nat)
  /-- raises any other exception: `error = str(e); break` -/
  | exn (msg : PyStr)
deriving DecidableEq

/-- The `max_retries = 3` constant of `_resumable_upload`. -/
def MAX_RETRIES : Nat := 3

/-- What one run of `_resumable_upload` does: its return value (the
response, or `none`), the `time.sleep` delays in order, the number of
`next_chunk()` attempts made, and the final value of the loop's
`error` variable. -/
inductive RunResult where
  | ret (resp : Option YtResponse) (delays : List Nat) (attempts : Nat)
      (lastError : Option ErrMsg)
  | raised (status : Nat) (delays : List Nat) (attempts : Nat)
deriving DecidableEq

/-- The `while response is None` loop.  The fuel argument is
`max_retries - retry` for the current retry counter `retry`; on a new
retryable error the counter becomes `retry + 1` and the loop breaks
when that exceeds `max_retries` (i.e. when fuel is exhausted),
otherwise it sleeps `2 ** (retry + 1) = 2 ^ (MAX_RETRIES - fuel')`
and continues. -/
def resumableGo (att : Nat → ChunkOutcome) : Nat → Nat → List Nat → RunResult
  | 0, i, delays =>
    match att i with
    | .done resp => .ret (some resp) delays (i + 1) none
    | .fatal status => .raised status delays (i + 1)
    | .exn msg => .ret none delays (i + 1) (some (.unexpectedError msg))
    | .retryable status => .ret none delays (i + 1) (some (.serverError status))
  | fuel' + 1, i, delays =>
    match att i with
    | .done resp => .ret (some resp) delays (i + 1) none
    | .fatal status => .raised status delays (i + 1)
    | .exn msg => .ret none delays (i + 1) (some (.unexpectedError msg))
    | .retryable _ =>
      resumableGo att fuel' (i + 1) (delays ++ [2 ^ (MAX_RETRIES - fuel')])

/-- Model of `YouTubePlatform._resumable_upload`: retry counter starts at 0. -/
def resumable_upload (att : Nat → ChunkOutcome) : RunResult :=
  resumableGo att MAX_RETRIES 0 []

/-- Projections of a run. -/
def RunResult.delays : RunResult → List Nat
  | .ret _ d _ _ => d
  | .raised _ d _ => d

def RunResult.attempts : RunResult → Nat
  | .ret _ _ n _ => n
  | .raised _ _ n => n

/-! ## YouTube `upload_video` (youtube_platform.py lines 91–170) -/

/-- Environment of one YouTube `upload_video` call. -/
structure YtEnv where
  /-- the value of `self.is_authenticated()` -/
  isAuth : Bool
  /-- answers for `validate_video_file(video_path)` -/
  file : FileInfo
  /-- behaviour of successive `next_chunk()` calls -/
  chunks : Nat → ChunkOutcome

/-- Model of `YouTubePlatform.upload_video`.  The auth and file checks precede the
`try` block; inside it, a `None` response yields the
`'Upload failed - no response'` failure, a response without `'id'`
raises `KeyError` at `response['id']` which the catch-all
`except Exception` turns into an `'Unexpected error during upload'`
failure, and a re-raised non-retryable `HttpError` is caught by
`except HttpError` as a `'YouTube API error'` failure. -/
def yt_upload_video (e : YtEnv) : UploadResult :=
  if ¬ e.isAuth then failRes .notAuthenticated
  else if ¬ validate_video_file e.file then failRes .invalidVideoFile
  else
    match resumable_upload e.chunks with
    | .ret (some resp) _ _ _ =>
      match resp.id with
      | some vid => ⟨true, none, some vid⟩
      | none => failRes (.unexpectedError (pys "'id'"))
    | .ret none _ _ _ => failRes .uploadFailedNoResponse
    | .raised status _ _ => failRes (.youtubeApiError status)

/-! ## TikTok `upload_video` (tiktok_platform.py lines 83–148)

The helper steps `_initialize_upload`, `_upload_file` and
`_publish_video` each wrap their HTTP call in `try`/`except` and always
return a dictionary (`success` key plus either payload fields or an
`error` message), so the step environments below carry those
dictionaries directly. -/

/-- Result dictionary of `TikTokPlatform._initialize_upload`. -/
inductive TtInitResult where
  | ok (upload_url video_id : PyStr)
  | err (msg : PyStr)
deriving DecidableEq

/-- Result dictionary of `TikTokPlatform._upload_file`. -/
inductive TtUploadFileResult where
  | ok
  | err (msg : PyStr)
deriving DecidableEq

/-- Result dictionary of `TikTokPlatform._publish_video`. -/
inductive TtPublishResult where
  | ok (publish_id : Option PyStr)
  | err (msg : PyStr)
deriving DecidableEq

/-- Environment of one TikTok `upload_video` call. -/
structure TikTokEnv where
  /-- the value of `self._authenticated` -/
  isAuth : Bool
  /-- what `self.authenticate()` would return if called -/
  authOk : Bool
  /-- answers for `validate_video_file(video_path)` -/
  file : FileInfo
  initR : TtInitResult
  uploadR : TtUploadFileResult
  publishR : TtPublishResult

/-- Which collaborator calls one `upload_video` run performed. -/
structure PhaseTrace where
  authCalled : Bool
  validateCalled : Bool
  beginCalled : Bool
  transferCalled : Bool
  publishCalled : Bool
deriving DecidableEq

/-- Model of `TikTokPlatform.upload_video`: authentication check first
(`if not self._authenticated: if not self.authenticate(): return ...`),
then file validation, then the three steps, each failure dictionary
returned unchanged. -/
def tiktok_upload_video (e : TikTokEnv) : UploadResult × PhaseTrace :=
  if ¬ e.isAuth ∧ ¬ e.authOk then
    (failRes .authenticationFailed, ⟨true, false, false, false, false⟩)
  else
    let authCalled := ! e.isAuth
    if ¬ validate_video_file e.file then
      (failRes .invalidVideoFile, ⟨authCalled, true, false, false, false⟩)
    else
      match e.initR with
      | .err msg => (failRes (.stepError msg), ⟨authCalled, true, true, false, false⟩)
      | .ok _ video_id =>
        match e.uploadR with
        | .err msg => (failRes (.stepError msg), ⟨authCalled, true, true, true, false⟩)
        | .ok =>
          match e.publishR with
          | .err msg => (failRes (.stepError msg), ⟨authCalled, true, true, true, true⟩)
          | .ok _ => (⟨true, none, some video_id⟩, ⟨authCalled, true, true, true, true⟩)

/-! ## Facebook `upload_video` (facebook_platform.py lines 93–138)

`_upload_video_resumable` chains `_start_upload_session`,
`_upload_file` and `_publish_video`; each is `try`/`except`-wrapped and
returns a dictionary. -/

/-- Result dictionary of `FacebookPlatform._start_upload_session`
(ok requires status 200 and an id starting with `upload:`). -/
inductive FbStartResult where
  | ok (session_id : PyStr)
  | err (msg : PyStr)
deriving DecidableEq

/-- Result dictionary of `FacebookPlatform._upload_file`. -/
inductive FbUploadFileResult where
  | ok (file_handle : PyStr)
  | err (msg : PyStr)
deriving DecidableEq

/-- Result dictionary of `FacebookPlatform._publish_video`. -/
inductive FbPublishResult where
  | ok (video_id : Option PyStr)
  | err (msg : PyStr)
deriving DecidableEq

/-- Environment of one Facebook `upload_video` call. -/
structure FbEnv where
  isAuth : Bool
  authOk : Bool
  file : FileInfo
  startR : FbStartResult
  uploadR : FbUploadFileResult
  publishR : FbPublishResult

/-- Model of `FacebookPlatform.upload_video`: same shape as TikTok — the
authentication check precedes `validate_video_file`, then the
resumable-upload chain runs, each failure passed through. -/
def facebook_upload_video (e : FbEnv) : UploadResult × PhaseTrace :=
  if ¬ e.isAuth ∧ ¬ e.authOk then
    (failRes .authenticationFailed, ⟨true, false, false, false, false⟩)
  else
    let authCalled := ! e.isAuth
    if ¬ validate_video_file e.file then
      (failRes .invalidVideoFile, ⟨authCalled, true, false, false, false⟩)
    else
      match e.startR with
      | .err msg => (failRes (.stepError msg), ⟨authCalled, true, true, false, false⟩)
      | .ok _ =>
        match e.uploadR with
        | .err msg => (failRes (.stepError msg), ⟨authCalled, true, true, true, false⟩)
        | .ok _ =>
          match e.publishR with
          | .err msg => (failRes (.stepError msg), ⟨authCalled, true, true, true, true⟩)
          | .ok vid => (⟨true, none, vid⟩, ⟨authCalled, true, true, true, true⟩)

/-! ## Platform manager (platform_manager.py)

`self.platforms` is a Python `dict` mapping name strings to platform
instances; modelled as an association list with insert-or-overwrite.
For the dispatcher claims a registered platform is abstracted by the
total behaviour of the three calls the manager makes on it
(`is_authenticated()`, `authenticate()`, `upload_video(...)` — the
concrete `upload_video` implementations above are total, each guarded
by its own catch-all `except`). -/

/-- First-match association-list lookup: Python `dict.get` (keys are
unique in a `dict`, so first match is the match). -/
def dlookup {α : Type} : List (PyStr × α) → PyStr → Option α
  | [], _ => none
  | (k', v) :: rest, k => if k' = k then some v else dlookup rest k

/-- Python `d[k] = v`: overwrite in place, else append. -/
def dictInsert {α : Type} : List (PyStr × α) → PyStr → α → List (PyStr × α)
  | [], k, v => [(k, v)]
  | (k', v') :: rest, k, v =>
    if k' = k then (k, v) :: rest else (k', v') :: dictInsert rest k v

/-- The keys of a dictionary. -/
def dkeys {α : Type} (d : List (PyStr × α)) : List PyStr := d.map Prod.fst

/-- Behaviour of one registered platform instance as the manager sees it. -/
structure PlatformBeh where
  /-- the value of `platform.is_authenticated()` -/
  isAuth : Bool
  /-- the value of `platform.authenticate()` -/
  authOk : Bool
  /-- the result of `platform.upload_video(...)` — total (each implementation catches
      all exceptions and returns a result dictionary) -/
  uploadResult : UploadResult
deriving DecidableEq

/-- The `PlatformManager` state: the `platforms` registry. -/
structure PlatformManager where
  platforms : List (PyStr × PlatformBeh)

/-- Model of `PlatformManager.get_platform`: `self.platforms.get(name.lower())`
(platform_manager.py lines 64–74). -/
def get_platform (m : PlatformManager) (name : PyStr) : Option PlatformBeh :=
  dlookup m.platforms (pyLower name)

/-- Which calls `upload_video_to_platform` made on the platform instance. -/
structure DispatchTrace where
  /-- whether `platform.authenticate()` was invoked by the manager -/
  authTried : Bool
  /-- whether `platform.upload_video(...)` was invoked -/
  uploadTried : Bool
deriving DecidableEq

/-- Model of `PlatformManager.upload_video_to_platform`
(platform_manager.py lines 114–138). -/
def upload_video_to_platform (m : PlatformManager) (platform_name : PyStr) :
    UploadResult × DispatchTrace :=
  match get_platform m platform_name with
  | none => (failRes (.platformNotFound platform_name), ⟨false, false⟩)
  | some platform =>
    if ¬ platform.isAuth then
      if ¬ platform.authOk then
        (failRes (.authFailedFor platform_name), ⟨true, false⟩)
      else (platform.uploadResult, ⟨true, true⟩)
    else (platform.uploadResult, ⟨false, true⟩)

/-- Model of `PlatformManager.upload_video_to_multiple_platforms`
(platform_manager.py lines 140–169): loop over the requested names,
storing each per-platform result under its name in the `results`
dictionary; the loop body never raises and never breaks. -/
def upload_video_to_multiple_platforms (m : PlatformManager)
    (platforms : List PyStr) : List (PyStr × UploadResult) :=
  platforms.foldl
    (fun results platform_name =>
      dictInsert results platform_name (upload_video_to_platform m platform_name).1)
    []

/-- Per-tag normalization as the specification words it: strip; drop if
empty; keep unchanged if already marked with `#`; otherwise prefix `#`.
Stated for comparison with the source's `formatHashtags` loop. -/
def hashtagNormSpec (tag : PyStr) : Option PyStr :=
  let t := pyStrip tag
  if t = [] then none
  else if startsWithHash t then some t
  else some ('#' :: t)


/-! ## Helper lemmas -/

theorem dictInsert_cons_pos {α : Type} (rest : List (PyStr × α)) (k' k : PyStr) (v' v : α)
    (h : k' = k) : dictInsert ((k', v') :: rest) k v = (k, v) :: rest := by
  simp [dictInsert, h]

theorem dictInsert_cons_neg {α : Type} (rest : List (PyStr × α)) (k' k : PyStr) (v' v : α)
    (h : ¬ k' = k) : dictInsert ((k', v') :: rest) k v = (k', v') :: dictInsert rest k v := by
  simp [dictInsert, h]

theorem dlookup_cons {α : Type} (rest : List (PyStr × α)) (k' j : PyStr) (v' : α) :
    dlookup ((k', v') :: rest) j = if k' = j then some v' else dlookup rest j := rfl

theorem dkeys_cons {α : Type} (rest : List (PyStr × α)) (k' : PyStr) (v' : α) :
    dkeys ((k', v') :: rest) = k' :: dkeys rest := rfl

theorem dlookup_dictInsert {α : Type} (d : List (PyStr × α)) (k j : PyStr) (v : α) :
    dlookup (dictInsert d k v) j = if k = j then some v else dlookup d j := by
  induction d with
  | nil => simp [dictInsert, dlookup]
  | cons p rest ih =>
    obtain ⟨k', v'⟩ := p
    by_cases h : k' = k
    · subst h
      rw [dictInsert_cons_pos rest k' k' v' v rfl, dlookup_cons, dlookup_cons]
      by_cases hj : k' = j <;> simp [hj]
    · rw [dictInsert_cons_neg rest k' k v' v h, dlookup_cons, dlookup_cons, ih]
      by_cases hj : k' = j
      · subst hj
        have hkj : ¬ k = k' := fun hc => h hc.symm
        simp [hkj]
      · simp [hj]

theorem mem_dkeys_dictInsert {α : Type} (d : List (PyStr × α)) (k j : PyStr) (v : α) :
    j ∈ dkeys (dictInsert d k v) ↔ j = k ∨ j ∈ dkeys d := by
  induction d with
  | nil => simp [dictInsert, dkeys]
  | cons p rest ih =>
    obtain ⟨k', v'⟩ := p
    by_cases h : k' = k
    · subst h
      rw [dictInsert_cons_pos rest k' k' v' v rfl, dkeys_cons, dkeys_cons]
      simp only [List.mem_cons]
      tauto
    · rw [dictInsert_cons_neg rest k' k v' v h, dkeys_cons, dkeys_cons]
      simp only [List.mem_cons, ih]
      tauto

theorem nodup_dkeys_dictInsert {α : Type} (d : List (PyStr × α)) (k : PyStr) (v : α)
    (h : (dkeys d).Nodup) : (dkeys (dictInsert d k v)).Nodup := by
  induction d with
  | nil => simp [dictInsert, dkeys]
  | cons p rest ih =>
    obtain ⟨k', v'⟩ := p
    rw [dkeys_cons, List.nodup_cons] at h
    by_cases hk : k' = k
    · subst hk
      rw [dictInsert_cons_pos rest k' k' v' v rfl, dkeys_cons, List.nodup_cons]
      exact h
    · rw [dictInsert_cons_neg rest k' k v' v hk, dkeys_cons, List.nodup_cons]
      refine ⟨?_, ih h.2⟩
      intro hc
      rcases (mem_dkeys_dictInsert rest k k' v).1 hc with h1 | h1
      · exact hk h1
      · exact h.1 h1

theorem dlookup_eq_none_iff {α : Type} (d : List (PyStr × α)) (j : PyStr) :
    dlookup d j = none ↔ j ∉ dkeys d := by
  induction d with
  | nil => simp [dlookup, dkeys]
  | cons p rest ih =>
    obtain ⟨k', v'⟩ := p
    rw [dlookup_cons, dkeys_cons]
    by_cases h : k' = j
    · subst h
      simp
    · simp only [if_neg h, ih, List.mem_cons]
      constructor
      · intro hn hc
        rcases hc with hc | hc
        · exact h hc.symm
        · exact hn hc
      · intro hn hc
        exact hn (Or.inr hc)

theorem dlookup_multi_go (m : PlatformManager) (names : List PyStr) :
    ∀ (acc : List (PyStr × UploadResult)) (j : PyStr),
    dlookup
      (names.foldl
        (fun results n => dictInsert results n (upload_video_to_platform m n).1) acc)
      j
    = if j ∈ names then some (upload_video_to_platform m j).1 else dlookup acc j := by
  induction names with
  | nil => intro acc j; simp
  | cons n rest ih =>
    intro acc j
    rw [List.foldl_cons, ih]
    by_cases hr : j ∈ rest
    · simp [hr, List.mem_cons]
    · rw [dlookup_dictInsert]
      by_cases hn : j = n
      · subst hn
        simp [hr]
      · have : ¬ n = j := fun hc => hn hc.symm
        simp [hr, hn, this]

theorem nodup_multi_go (m : PlatformManager) (names : List PyStr) :
    ∀ (acc : List (PyStr × UploadResult)), (dkeys acc).Nodup →
    (dkeys
      (names.foldl
        (fun results n => dictInsert results n (upload_video_to_platform m n).1) acc)).Nodup := by
  induction names with
  | nil => intro acc h; simpa using h
  | cons n rest ih =>
    intro acc h
    rw [List.foldl_cons]
    exact ih _ (nodup_dkeys_dictInsert acc n _ h)

theorem resumableGo_done (att : Nat → ChunkOutcome) (fuel i : Nat) (acc : List Nat)
    (resp : YtResponse) (h : att i = .done resp) :
    resumableGo att fuel i acc = .ret (some resp) acc (i + 1) none := by
  cases fuel <;> simp [resumableGo, h]

theorem resumableGo_fatal (att : Nat → ChunkOutcome) (fuel i : Nat) (acc : List Nat)
    (status : Nat) (h : att i = .fatal status) :
    resumableGo att fuel i acc = .raised status acc (i + 1) := by
  cases fuel <;> simp [resumableGo, h]

theorem resumableGo_exn (att : Nat → ChunkOutcome) (fuel i : Nat) (acc : List Nat)
    (msg : PyStr) (h : att i = .exn msg) :
    resumableGo att fuel i acc = .ret none acc (i + 1) (some (.unexpectedError msg)) := by
  cases fuel <;> simp [resumableGo, h]

theorem resumableGo_zero_retryable (att : Nat → ChunkOutcome) (i : Nat) (acc : List Nat)
    (status : Nat) (h : att i = .retryable status) :
    resumableGo att 0 i acc = .ret none acc (i + 1) (some (.serverError status)) := by
  simp [resumableGo, h]

theorem resumableGo_succ_retryable (att : Nat → ChunkOutcome) (f i : Nat) (acc : List Nat)
    (status : Nat) (h : att i = .retryable status) :
    resumableGo att (f + 1) i acc
      = resumableGo att f (i + 1) (acc ++ [2 ^ (MAX_RETRIES - f)]) := by
  simp [resumableGo, h]

theorem resumableGo_attempts_le (att : Nat → ChunkOutcome) :
    ∀ (fuel i : Nat) (acc : List Nat),
    (resumableGo att fuel i acc).attempts ≤ i + fuel + 1 := by
  intro fuel
  induction fuel with
  | zero =>
    intro i acc
    cases h : att i
    · rw [resumableGo_done att 0 i acc _ h]; simp [RunResult.attempts]
    · rw [resumableGo_zero_retryable att i acc _ h]; simp [RunResult.attempts]
    · rw [resumableGo_fatal att 0 i acc _ h]; simp [RunResult.attempts]
    · rw [resumableGo_exn att 0 i acc _ h]; simp [RunResult.attempts]
  | succ f ih =>
    intro i acc
    cases h : att i
    · rw [resumableGo_done att (f + 1) i acc _ h]; simp only [RunResult.attempts]; omega
    · rw [resumableGo_succ_retryable att f i acc _ h]
      have := ih (i + 1) (acc ++ [2 ^ (MAX_RETRIES - f)])
      omega
    · rw [resumableGo_fatal att (f + 1) i acc _ h]; simp only [RunResult.attempts]; omega
    · rw [resumableGo_exn att (f + 1) i acc _ h]; simp only [RunResult.attempts]; omega

theorem resumableGo_delays_shape (att : Nat → ChunkOutcome) :
    ∀ (fuel : Nat), fuel ≤ MAX_RETRIES → ∀ (i : Nat) (acc : List Nat),
    ∃ k, k ≤ fuel ∧
      (resumableGo att fuel i acc).delays
        = acc ++ ((List.range k).map fun j => 2 ^ (MAX_RETRIES - fuel + 1 + j)) := by
  intro fuel
  induction fuel with
  | zero =>
    intro _ i acc
    refine ⟨0, Nat.le_refl 0, ?_⟩
    cases h : att i
    · rw [resumableGo_done att 0 i acc _ h]; simp [RunResult.delays]
    · rw [resumableGo_zero_retryable att i acc _ h]; simp [RunResult.delays]
    · rw [resumableGo_fatal att 0 i acc _ h]; simp [RunResult.delays]
    · rw [resumableGo_exn att 0 i acc _ h]; simp [RunResult.delays]
  | succ f ih =>
    intro hle i acc
    cases h : att i
    case done resp =>
      refine ⟨0, Nat.zero_le _, ?_⟩
      rw [resumableGo_done att (f + 1) i acc _ h]; simp [RunResult.delays]
    case retryable status =>
      rw [resumableGo_succ_retryable att f i acc _ h]
      obtain ⟨k, hk, hd⟩ := ih (Nat.le_of_succ_le hle) (i + 1) (acc ++ [2 ^ (MAX_RETRIES - f)])
      refine ⟨k + 1, Nat.succ_le_succ hk, ?_⟩
      rw [hd, List.append_assoc]
      congr 1
      rw [List.range_succ_eq_map, List.map_cons, List.map_map,
        List.singleton_append]
      congr 1
      · congr 1
        omega
      · apply List.map_congr_left
        intro a _
        simp only [Function.comp_apply]
        congr 1
        omega
    case fatal status =>
      refine ⟨0, Nat.zero_le _, ?_⟩
      rw [resumableGo_fatal att (f + 1) i acc _ h]; simp [RunResult.delays]
    case exn msg =>
      refine ⟨0, Nat.zero_le _, ?_⟩
      rw [resumableGo_exn att (f + 1) i acc _ h]; simp [RunResult.delays]

theorem resumable_upload_delays (att : Nat → ChunkOutcome) :
    ∃ k, k ≤ 3 ∧ (resumable_upload att).delays = [2, 4, 8].take k := by
  obtain ⟨k, hk, hd⟩ :=
    resumableGo_delays_shape att MAX_RETRIES (Nat.le_refl _) 0 []
  have hk3 : k ≤ 3 := hk
  refine ⟨k, hk3, ?_⟩
  rw [resumable_upload] at *
  rw [hd]
  interval_cases k <;> decide

theorem resumable_upload_exhausted (att : Nat → ChunkOutcome) (c0 c1 c2 c3 : Nat)
    (h0 : att 0 = .retryable c0) (h1 : att 1 = .retryable c1)
    (h2 : att 2 = .retryable c2) (h3 : att 3 = .retryable c3) :
    resumable_upload att = .ret none [2, 4, 8] 4 (some (.serverError c3)) := by
  have e0 : resumable_upload att = resumableGo att (2 + 1) 0 [] := rfl
  rw [e0, resumableGo_succ_retryable att 2 0 [] c0 h0]
  have e1 : resumableGo att 2 = resumableGo att (1 + 1) := rfl
  rw [e1, resumableGo_succ_retryable att 1 1 _ c1 h1]
  have e2 : resumableGo att 1 = resumableGo att (0 + 1) := rfl
  rw [e2, resumableGo_succ_retryable att 0 2 _ c2 h2]
  rw [resumableGo_zero_retryable att 3 _ c3 h3]
  norm_num [MAX_RETRIES]

theorem toNat_ofNat_valid (n : Nat) (h : n < 55296) : (Char.ofNat n).toNat = n := by
  have hv : n.isValidChar := Or.inl h
  simp only [Char.ofNat, hv, dif_pos]
  rfl

theorem pyLowerChar_idem (c : Char) : pyLowerChar (pyLowerChar c) = pyLowerChar c := by
  by_cases h : 65 ≤ c.toNat ∧ c.toNat ≤ 90
  · have hlt : c.toNat + 32 < 55296 := by omega
    have ht : (Char.ofNat (c.toNat + 32)).toNat = c.toNat + 32 :=
      toNat_ofNat_valid _ hlt
    simp only [pyLowerChar, if_pos h]
    rw [if_neg]
    rw [ht]
    omega
  · simp only [pyLowerChar, if_neg h]

theorem pyLower_idem (s : PyStr) : pyLower (pyLower s) = pyLower s := by
  induction s with
  | nil => rfl
  | cons c rest ih =>
    simp only [pyLower, List.map_cons] at *
    rw [pyLowerChar_idem]
    exact congrArg _ ih

/-! ## Claim theorems -/

/-- C8: `validate_video_file` returns `True` exactly when the path exists,
refers to a regular file, and the file size is strictly positive; in every
other case — including a raised exception while inspecting the path — it
returns `False`. -/
theorem validate_video_file_iff (f : FileInfo) :
    validate_video_file f = true
      ↔ (f.exRes = .ok true ∧ f.isFileRes = .ok true
          ∧ ∃ n, f.statSizeRes = .ok n ∧ 0 < n) := by
  obtain ⟨ex, isf, st⟩ := f
  cases ex with
  | error m => simp [validate_video_file]
  | ok b =>
    cases b
    · simp [validate_video_file]
    · cases isf with
      | error m => simp [validate_video_file]
      | ok b2 =>
        cases b2
        · simp [validate_video_file]
        · cases st with
          | error m => simp [validate_video_file]
          | ok n =>
            by_cases hn : n = 0 <;> simp [validate_video_file, hn]
            omega

/-- C6 (counterexample): for the whitespace-only title `" "` the prepared
title is the empty string — not the trimmed non-empty value the claim
requires, and not the `'Untitled'` sentinel either. -/
theorem prepare_title_whitespace_cex :
    (prepare_upload_data (pys " ") (pys "desc")).title = []
      ∧ pys "Untitled" ≠ ([] : PyStr) := by
  constructor
  · decide
  · decide

/-- C6 (amended): the prepared title is the stripped input when the stripped
input is non-empty, the sentinel `'Untitled'` exactly when the input title is
the empty string, and empty precisely for a non-empty whitespace-only input
(Python's `if title` tests emptiness before stripping). -/
theorem prepare_title_spec (title description : PyStr) :
    (title = [] → (prepare_upload_data title description).title = pys "Untitled")
  ∧ (pyStrip title ≠ [] →
      (prepare_upload_data title description).title = pyStrip title)
  ∧ ((prepare_upload_data title description).title = []
      ↔ (title ≠ [] ∧ pyStrip title = [])) := by
  by_cases h : title = []
  · subst h
    refine ⟨fun _ => rfl, ?_, ?_⟩
    · intro hs
      exact absurd rfl hs
    · simp [prepare_upload_data]
      decide
  · refine ⟨fun hc => absurd hc h, fun _ => by simp [prepare_upload_data, h], ?_⟩
    simp [prepare_upload_data, h]

/-- C6 (witness for the amended theorem). -/
theorem prepare_title_spec_witness :
    (prepare_upload_data (pys " Hi ") (pys "")).title = pys "Hi" := by
  have h := prepare_title_spec (pys " Hi ") (pys "")
  have h2 := h.2.1 (by decide)
  rw [h2]
  decide

/-- C7: the hashtag loop of `_format_description` / `_format_combined_text`
realizes exactly the per-tag normalization `hashtagNormSpec` — non-empty
stripped tags without a leading `#` are prefixed with `#`, tags already
starting with `#` are kept (stripped) unchanged, empty or whitespace-only
tags are dropped — and every formatted tag starts with `#`. -/
theorem formatHashtags_spec (hashtags : List PyStr) :
    formatHashtags hashtags = hashtags.filterMap hashtagNormSpec
  ∧ ∀ s, s ∈ formatHashtags hashtags → startsWithHash s = true := by
  induction hashtags with
  | nil =>
    refine ⟨rfl, ?_⟩
    intro s hs
    simp [formatHashtags] at hs
  | cons tag rest ih =>
    obtain ⟨ihEq, ihHash⟩ := ih
    by_cases h1 : pyStrip tag = []
    · have hF : formatHashtags (tag :: rest) = formatHashtags rest := by
        simp [formatHashtags, h1]
      have hN : hashtagNormSpec tag = none := by
        simp [hashtagNormSpec, h1]
      refine ⟨?_, ?_⟩
      · rw [hF, List.filterMap_cons, hN, ihEq]
      · intro s hs
        rw [hF] at hs
        exact ihHash s hs
    · by_cases h2 : startsWithHash (pyStrip tag) = true
      · have hF : formatHashtags (tag :: rest)
            = pyStrip tag :: formatHashtags rest := by
          simp [formatHashtags, h1, h2]
        have hN : hashtagNormSpec tag = some (pyStrip tag) := by
          simp [hashtagNormSpec, h1, h2]
        refine ⟨?_, ?_⟩
        · rw [hF, List.filterMap_cons, hN, ihEq]
        · intro s hs
          rw [hF] at hs
          rcases List.mem_cons.1 hs with hs | hs
          · rw [hs]; exact h2
          · exact ihHash s hs
      · have hF : formatHashtags (tag :: rest)
            = ('#' :: pyStrip tag) :: formatHashtags rest := by
          simp [formatHashtags, h1, h2]
        have hN : hashtagNormSpec tag = some ('#' :: pyStrip tag) := by
          simp [hashtagNormSpec, h1, h2]
        refine ⟨?_, ?_⟩
        · rw [hF, List.filterMap_cons, hN, ihEq]
        · intro s hs
          rw [hF] at hs
          rcases List.mem_cons.1 hs with hs | hs
          · rw [hs]; simp [startsWithHash]
          · exact ihHash s hs

/-- C7 (witness). -/
theorem formatHashtags_spec_witness :
    formatHashtags [pys " tag ", pys "#x", pys "  "]
      = [pys " tag ", pys "#x", pys "  "].filterMap hashtagNormSpec
  ∧ startsWithHash (pys "#tag") = true := by
  have h := formatHashtags_spec [pys " tag ", pys "#x", pys "  "]
  exact ⟨h.1, h.2 (pys "#tag") (by decide)⟩

/-- C9: the TikTok description is truncated to at most 2200 characters —
exactly the first 2197 characters plus `"..."` when the joined parts exceed
2200 — and the `description` field `_publish_video` sends is truncated to at
most 2200 characters. -/
theorem description_truncation (title description : PyStr)
    (hashtags : Option (List PyStr)) :
    (format_description title description hashtags).length ≤ 2200
  ∧ ((format_combined_text title description hashtags).length > 2200 →
      format_description title description hashtags
        = (format_combined_text title description hashtags).take 2197 ++ pys "...")
  ∧ ((format_combined_text title description hashtags).length ≤ 2200 →
      format_description title description hashtags
        = format_combined_text title description hashtags)
  ∧ ∀ s : PyStr, (publishRequestDescription s).length ≤ 2200 := by
  have hdot : (pys "...").length = 3 := rfl
  have htake : ∀ s : PyStr, (publishRequestDescription s).length ≤ 2200 := by
    intro s
    rw [publishRequestDescription, List.length_take]
    omega
  by_cases h : (format_combined_text title description hashtags).length > 2200
  · have hfd : format_description title description hashtags
        = (format_combined_text title description hashtags).take 2197 ++ pys "..." := by
      simp only [format_description, if_pos h]
    refine ⟨?_, fun _ => hfd, fun hc => absurd h (by omega), htake⟩
    rw [hfd, List.length_append, List.length_take, hdot]
    omega
  · have hfd : format_description title description hashtags
        = format_combined_text title description hashtags := by
      simp only [format_description, if_neg h]
    exact ⟨by rw [hfd]; omega, fun hc => absurd hc h, fun _ => hfd, htake⟩

/-- Stripping a string with no whitespace characters leaves it unchanged. -/
theorem pyStrip_of_no_ws (s : PyStr) (h : ∀ c ∈ s, Char.isWhitespace c = false) :
    pyStrip s = s := by
  have hd : ∀ (l : PyStr), (∀ c ∈ l, Char.isWhitespace c = false) →
      l.dropWhile Char.isWhitespace = l := by
    intro l hl
    rw [List.dropWhile_eq_self_iff]
    intro hlen
    have := hl _ (List.getElem_mem hlen)
    simp [this]
  rw [pyStrip, hd s h, hd s.reverse (fun c hc => h c (List.mem_reverse.1 hc)),
    List.reverse_reverse]

/-- Combined text of a title alone (no description, no hashtags). -/
theorem fct_title_only (t : PyStr) (ht : t ≠ []) (hs : pyStrip t = t) :
    format_combined_text t [] none = t := by
  rw [format_combined_text, descriptionParts]
  simp [ht, hs, List.intercalate]

/-- The combined text of a 2300-`'a'` title alone. -/
theorem fct_replicate_a :
    format_combined_text (List.replicate 2300 'a') [] none
      = List.replicate 2300 'a' := by
  have hne : (List.replicate 2300 'a' : PyStr) ≠ [] := by
    intro hc
    have h1 : (List.replicate 2300 'a').length = 0 := by rw [hc]; rfl
    rw [List.length_replicate] at h1
    exact absurd h1 (by norm_num)
  exact fct_title_only _ hne
    (pyStrip_of_no_ws _ (fun c hc => by rw [List.eq_of_mem_replicate hc]; rfl))

/-- C9 (witness): a 2300-character title is cut to 2197 characters plus
`"..."`. -/
theorem description_truncation_witness :
    format_description (List.replicate 2300 'a') [] none
      = List.replicate 2197 'a' ++ pys "..." := by
  have h := description_truncation (List.replicate 2300 'a') [] none
  have hgt : (format_combined_text (List.replicate 2300 'a') [] none).length
      > 2200 := by
    rw [fct_replicate_a, List.length_replicate]
    norm_num
  rw [h.2.1 hgt, fct_replicate_a, List.take_replicate]
  norm_num

/-- C10: `get_platform` lowercases the requested name before the lookup, so
it agrees with the lookup of the lowercased name, and it returns `None`
(rather than raising) when no platform is registered under the lowercase
key. -/
theorem get_platform_lower (m : PlatformManager) (name : PyStr) :
    get_platform m name = get_platform m (pyLower name)
  ∧ (pyLower name ∉ dkeys m.platforms → get_platform m name = none) := by
  constructor
  · rw [get_platform, get_platform, pyLower_idem]
  · intro h
    rw [get_platform]
    exact (dlookup_eq_none_iff _ _).2 h

/-- C10 (witness). -/
theorem get_platform_lower_witness :
    get_platform ⟨[(pys "tiktok", ⟨true, true, ⟨true, none, some (pys "ok")⟩⟩)]⟩
      (pys "YouTube") = none := by
  have h := get_platform_lower
    ⟨[(pys "tiktok", ⟨true, true, ⟨true, none, some (pys "ok")⟩⟩)]⟩ (pys "YouTube")
  exact h.2 (by decide)

/-- C1: the dispatcher's result maps each requested platform identifier to
exactly one outcome — the outcome of that platform's own orchestration —
with no identifier dropped, duplicated, or affected by any other
platform's failure. -/
theorem dispatcher_complete (m : PlatformManager) (platforms : List PyStr) :
    (dkeys (upload_video_to_multiple_platforms m platforms)).Nodup
  ∧ (∀ j, j ∈ dkeys (upload_video_to_multiple_platforms m platforms)
      ↔ j ∈ platforms)
  ∧ (∀ j, dlookup (upload_video_to_multiple_platforms m platforms) j
      = if j ∈ platforms then some (upload_video_to_platform m j).1 else none) := by
  have hl : ∀ j, dlookup (upload_video_to_multiple_platforms m platforms) j
      = if j ∈ platforms then some (upload_video_to_platform m j).1 else none := by
    intro j
    have h := dlookup_multi_go m platforms [] j
    simpa [upload_video_to_multiple_platforms, dlookup] using h
  have hn : (dkeys (upload_video_to_multiple_platforms m platforms)).Nodup := by
    have h := nodup_multi_go m platforms [] (by simp [dkeys])
    simpa [upload_video_to_multiple_platforms] using h
  refine ⟨hn, ?_, hl⟩
  intro j
  have hiff := dlookup_eq_none_iff (upload_video_to_multiple_platforms m platforms) j
  constructor
  · intro hj
    by_contra hc
    have hnone : dlookup (upload_video_to_multiple_platforms m platforms) j = none := by
      rw [hl j, if_neg hc]
    exact (hiff.1 hnone) hj
  · intro hj
    by_contra hc
    have hnone := hiff.2 hc
    rw [hl j, if_pos hj] at hnone
    simp at hnone

/-- C4: a requested platform identifier with no registered driver yields an
immediate `Platform not found` failure — `authenticate` and `upload_video`
are never invoked for it — and every other requested platform's entry in the
dispatch result is still exactly its own orchestration outcome. -/
theorem unknown_platform (m : PlatformManager) (platforms : List PyStr)
    (name : PyStr) (h : get_platform m name = none) :
    upload_video_to_platform m name
      = (failRes (.platformNotFound name), ⟨false, false⟩)
  ∧ ∀ j, j ≠ name →
      dlookup (upload_video_to_multiple_platforms m platforms) j
        = if j ∈ platforms then some (upload_video_to_platform m j).1 else none := by
  constructor
  · simp [upload_video_to_platform, h]
  · intro j _
    have h2 := dlookup_multi_go m platforms [] j
    simpa [upload_video_to_multiple_platforms, dlookup] using h2

/-- C4 (witness). -/
theorem unknown_platform_witness :
    upload_video_to_platform
      ⟨[(pys "tiktok", ⟨true, true, ⟨true, none, some (pys "ok")⟩⟩)]⟩ (pys "vimeo")
      = (failRes (.platformNotFound (pys "vimeo")), ⟨false, false⟩) := by
  have h := unknown_platform
    ⟨[(pys "tiktok", ⟨true, true, ⟨true, none, some (pys "ok")⟩⟩)]⟩
    [pys "vimeo", pys "tiktok"] (pys "vimeo") (by decide)
  exact h.1

/-- C3 (counterexample): for an unauthenticated platform and a nonexistent
video file, TikTok's and Facebook's `upload_video` invoke `authenticate`
(trace `authCalled = true`) and terminate with the authentication failure,
not the invalid-asset failure — validation does not precede authentication. -/
theorem validation_order_cex :
    tiktok_upload_video
      ⟨false, false, missingFile, .err (pys "e"), .err (pys "e"), .err (pys "e")⟩
      = (failRes .authenticationFailed, ⟨true, false, false, false, false⟩)
  ∧ facebook_upload_video
      ⟨false, false, missingFile, .err (pys "e"), .err (pys "e"), .err (pys "e")⟩
      = (failRes .authenticationFailed, ⟨true, false, false, false, false⟩)
  ∧ ErrMsg.authenticationFailed ≠ ErrMsg.invalidVideoFile := by
  refine ⟨by decide, by decide, by decide⟩

/-- C3 (amended): the authentication check precedes file validation — an
unauthenticated platform always invokes `authenticate` first (and reports
its failure even for an invalid file); only when already authenticated or
when authentication succeeds does an invalid file produce the invalid-asset
failure, in which case no upload phase is attempted. -/
theorem validation_order (eT : TikTokEnv) (eF : FbEnv) :
    ((tiktok_upload_video eT).2.authCalled = ! eT.isAuth)
  ∧ ((facebook_upload_video eF).2.authCalled = ! eF.isAuth)
  ∧ (validate_video_file eT.file = false →
      ((eT.isAuth = true ∨ eT.authOk = true) →
        tiktok_upload_video eT
          = (failRes .invalidVideoFile, ⟨! eT.isAuth, true, false, false, false⟩))
      ∧ (eT.isAuth = false → eT.authOk = false →
        tiktok_upload_video eT
          = (failRes .authenticationFailed, ⟨true, false, false, false, false⟩)))
  ∧ (validate_video_file eF.file = false →
      ((eF.isAuth = true ∨ eF.authOk = true) →
        facebook_upload_video eF
          = (failRes .invalidVideoFile, ⟨! eF.isAuth, true, false, false, false⟩))
      ∧ (eF.isAuth = false → eF.authOk = false →
        facebook_upload_video eF
          = (failRes .authenticationFailed, ⟨true, false, false, false, false⟩))) := by
  obtain ⟨iA, aO, f, iR, uR, pR⟩ := eT
  obtain ⟨iA2, aO2, f2, sR2, uR2, pR2⟩ := eF
  refine ⟨?_, ?_, ?_, ?_⟩
  · cases iA <;> cases aO <;> cases hv : validate_video_file f <;>
      cases iR <;> cases uR <;> cases pR <;>
      simp [tiktok_upload_video, hv]
  · cases iA2 <;> cases aO2 <;> cases hv : validate_video_file f2 <;>
      cases sR2 <;> cases uR2 <;> cases pR2 <;>
      simp [facebook_upload_video, hv]
  · intro hv
    constructor
    · intro hOk
      cases iA
      · cases aO
        · rcases hOk with hc | hc <;> simp at hc
        · simp [tiktok_upload_video, hv]
      · simp [tiktok_upload_video, hv]
    · intro h1 h2
      subst h1; subst h2
      simp [tiktok_upload_video]
  · intro hv
    constructor
    · intro hOk
      cases iA2
      · cases aO2
        · rcases hOk with hc | hc <;> simp at hc
        · simp [facebook_upload_video, hv]
      · simp [facebook_upload_video, hv]
    · intro h1 h2
      subst h1; subst h2
      simp [facebook_upload_video]

/-- C3 (witness for the amended theorem): an already-authenticated TikTok
platform with a missing file fails with the invalid-asset error without
calling `authenticate`. -/
theorem validation_order_witness :
    tiktok_upload_video
      ⟨true, false, missingFile, .err (pys "e"), .err (pys "e"), .err (pys "e")⟩
      = (failRes .invalidVideoFile, ⟨false, true, false, false, false⟩) := by
  have h := validation_order
    ⟨true, false, missingFile, .err (pys "e"), .err (pys "e"), .err (pys "e")⟩
    ⟨true, false, missingFile, .err (pys "e"), .err (pys "e"), .err (pys "e")⟩
  have h3 := (h.2.2.1 (by decide)).1 (Or.inl rfl)
  simpa using h3

/-- C5: every `upload_video` run returns a structured result — success, or
failure carrying an error detail — and an exception crossing the helper
boundary (YouTube's re-raised `HttpError`) is caught and converted into a
failure result rather than propagating out of `upload_video`. -/
theorem upload_video_structured (eT : TikTokEnv) (eF : FbEnv) (eY : YtEnv) :
    ((tiktok_upload_video eT).1.success = true
      ∨ (tiktok_upload_video eT).1.error ≠ none)
  ∧ ((facebook_upload_video eF).1.success = true
      ∨ (facebook_upload_video eF).1.error ≠ none)
  ∧ ((yt_upload_video eY).success = true ∨ (yt_upload_video eY).error ≠ none)
  ∧ (∀ status delays n, resumable_upload eY.chunks = .raised status delays n →
      eY.isAuth = true → validate_video_file eY.file = true →
      yt_upload_video eY = failRes (.youtubeApiError status)) := by
  obtain ⟨iA, aO, f, iR, uR, pR⟩ := eT
  obtain ⟨iA2, aO2, f2, sR2, uR2, pR2⟩ := eF
  obtain ⟨iA3, f3, chunks⟩ := eY
  refine ⟨?_, ?_, ?_, ?_⟩
  · cases iA <;> cases aO <;> cases hv : validate_video_file f <;>
      cases iR <;> cases uR <;> cases pR <;>
      simp [tiktok_upload_video, hv, failRes]
  · cases iA2 <;> cases aO2 <;> cases hv : validate_video_file f2 <;>
      cases sR2 <;> cases uR2 <;> cases pR2 <;>
      simp [facebook_upload_video, hv, failRes]
  · cases iA3
    · simp [yt_upload_video, failRes]
    · cases hv : validate_video_file f3
      · simp [yt_upload_video, hv, failRes]
      · cases hr : resumable_upload chunks with
        | ret resp delays n lastE =>
          cases resp with
          | none => simp [yt_upload_video, hv, hr, failRes]
          | some r =>
            obtain ⟨id⟩ := r
            cases id <;> simp [yt_upload_video, hv, hr, failRes]
        | raised status delays n =>
          simp [yt_upload_video, hv, hr, failRes]
  · intro status delays n hr hA hv
    simp only at hA
    subst hA
    simp [yt_upload_video, hv, hr, failRes]

/-- C5 (witness): a non-retryable `HttpError` raised out of
`_resumable_upload` becomes a structured `YouTube API error` failure. -/
theorem upload_video_structured_witness :
    yt_upload_video ⟨true, goodFile, fun _ => .fatal 403⟩
      = failRes (.youtubeApiError 403) := by
  have h := upload_video_structured
    ⟨true, true, goodFile, .err (pys "e"), .ok, .ok none⟩
    ⟨true, true, goodFile, .err (pys "e"), .err (pys "e"), .err (pys "e")⟩
    ⟨true, goodFile, fun _ => .fatal 403⟩
  exact h.2.2.2 403 [] 1 (by decide) rfl (by decide)

/-- C2 (counterexample): when all four attempts fail with retryable status
503, the loop's last error is `Server error 503`, but the orchestration's
failed outcome carries the generic `'Upload failed - no response'` detail —
not the last error, contrary to the claim. -/
theorem yt_retry_cex :
    resumable_upload (fun _ => .retryable 503)
      = .ret none [2, 4, 8] 4 (some (.serverError 503))
  ∧ yt_upload_video ⟨true, goodFile, fun _ => .retryable 503⟩
      = failRes .uploadFailedNoResponse
  ∧ ErrMsg.uploadFailedNoResponse ≠ ErrMsg.serverError 503 := by
  refine ⟨by decide, by decide, by decide⟩

/-- C2 (amended): any `_resumable_upload` run makes at most 4 attempts with
backoff delays forming a prefix of 2, 4, 8; when the first four attempts
all fail retryably the run makes exactly 4 attempts, sleeps 2, 4, 8, keeps
the last server error only internally, and `upload_video` reports the
generic `'Upload failed - no response'` failure. -/
theorem yt_retry_policy (att : Nat → ChunkOutcome) :
    (resumable_upload att).attempts ≤ 4
  ∧ (∃ k, k ≤ 3 ∧ (resumable_upload att).delays = [2, 4, 8].take k)
  ∧ (∀ c0 c1 c2 c3,
      att 0 = .retryable c0 → att 1 = .retryable c1 →
      att 2 = .retryable c2 → att 3 = .retryable c3 →
      resumable_upload att = .ret none [2, 4, 8] 4 (some (.serverError c3))
      ∧ ∀ f : FileInfo, validate_video_file f = true →
          yt_upload_video ⟨true, f, att⟩ = failRes .uploadFailedNoResponse) := by
  refine ⟨?_, resumable_upload_delays att, ?_⟩
  · have h := resumableGo_attempts_le att MAX_RETRIES 0 []
    simpa [resumable_upload, MAX_RETRIES] using h
  · intro c0 c1 c2 c3 h0 h1 h2 h3
    have hex := resumable_upload_exhausted att c0 c1 c2 c3 h0 h1 h2 h3
    refine ⟨hex, ?_⟩
    intro f hv
    simp [yt_upload_video, hv, hex, failRes]

/-- C2 (witness for the amended theorem). -/
theorem yt_retry_policy_witness :
    resumable_upload (fun _ => .retryable 500)
      = .ret none [2, 4, 8] 4 (some (.serverError 500))
  ∧ yt_upload_video ⟨true, goodFile, fun _ => .retryable 500⟩
      = failRes .uploadFailedNoResponse := by
  have h := yt_retry_policy (fun _ => .retryable 500)
  have h3 := h.2.2 500 500 500 500 rfl rfl rfl rfl
  exact ⟨h3.1, h3.2 goodFile (by decide)⟩
